import Mathlib

/-!
Verification model of the vikingdb-go-sdk request pipeline: the SDK error type and
retryability predicate (vector/model, src/unnamed/part_004), the retry-with-backoff
helper (vector/utils, src/unnamed/part_006), the HTTP execution and response decoding
helpers (vector/utils, src/unnamed/part_007), and the transport construction and
request building logic (vector/collection_client.go).

Conventions of the embedding:
- Go byte slices and strings are Lean String values; Go int is Lean Int;
  time.Duration is a count of nanoseconds (Int values are used where the Go
  type is int, Nat where the quantity is known non-negative).
- A Go error variable is an Option GoError, none standing for nil.
- External collaborators (the net/http client, the IAM signing primitive, the
  encoding/json decoder) are modelled by explicit parameters or by small
  executable models of their documented behavior, as noted at each definition.
-/

namespace VikingDB

/-- Underlying Go error values that the SDK wraps as a cause: context
cancellation, context deadline expiry, transport-level network failures and
JSON or body-read failures. These model non-SDK Go errors. -/
inductive Cause where
  | ctxCanceled
  | ctxDeadlineExceeded
  | netError (desc : String)
  | jsonError (desc : String)
  | readError (desc : String)
deriving DecidableEq, Repr

/-- model.Error (src/unnamed/part_004 lines 52-67): code, message, HTTP status,
request id, and the wrapped cause (the Err field, none when nil). -/
structure SDKError where
  code : String
  message : String
  statusCode : Int
  requestID : String
  cause : Option Cause
deriving DecidableEq, Repr

/-- A Go error value as seen by the SDK: either the SDK error type or some
other error (network library errors, context errors and so on). -/
inductive GoError where
  | sdk (e : SDKError)
  | other (c : Cause)
deriving DecidableEq, Repr

/-- model.ErrCodeHTTPRequestFailed. -/
def ErrCodeHTTPRequestFailed : String := "HTTPRequestFailed"

/-- model.ErrCodeUnknown. -/
def ErrCodeUnknown : String := "Unknown"

/-- model.ErrCodeInvalidParameter. -/
def ErrCodeInvalidParameter : String := "InvalidParameter"

/-- model.ErrCodeServiceUnavailable. -/
def ErrCodeServiceUnavailable : String := "ServiceUnavailable"

/-- model.ErrCodeTimeout. -/
def ErrCodeTimeout : String := "Timeout"

/-- model.ErrCodeRequestLimitExceeded. -/
def ErrCodeRequestLimitExceeded : String := "RequestLimitExceeded"

/-- model.NewErrorWithStatusCode. -/
def NewErrorWithStatusCode (code message : String) (statusCode : Int) : SDKError :=
  { code := code, message := message, statusCode := statusCode, requestID := "", cause := none }

/-- model.NewErrorWithRequestID. -/
def NewErrorWithRequestID (code message requestID : String) (statusCode : Int) : SDKError :=
  { code := code, message := message, statusCode := statusCode, requestID := requestID, cause := none }

/-- model.NewErrorWithCause; the cause is an Option because Go callers may pass
a nil error value as the cause argument. -/
def NewErrorWithCause (code message : String) (cause : Option Cause) (statusCode : Int) : SDKError :=
  { code := code, message := message, statusCode := statusCode, requestID := "", cause := cause }

/-- model.NewInvalidParameterError: an InvalidParameter error with HTTP status 400. -/
def NewInvalidParameterError (message : String) : SDKError :=
  NewErrorWithStatusCode ErrCodeInvalidParameter message 400

/-- model.IsRetryableError (src/unnamed/part_004 lines 121-143): nil and
non-SDK errors are not retryable; an SDK error is retryable when its HTTP
status is 429, 500, 502, 503 or 504 (the net/http constants used in the
source), or otherwise when its code is ServiceUnavailable, Timeout or
RequestLimitExceeded. -/
def IsRetryableError : Option GoError → Bool
  | none => false
  | some (GoError.other _) => false
  | some (GoError.sdk e) =>
    if e.statusCode = 429 ∨ e.statusCode = 500 ∨ e.statusCode = 502 ∨ e.statusCode = 503 ∨ e.statusCode = 504 then
      true
    else if e.code = ErrCodeServiceUnavailable ∨ e.code = ErrCodeTimeout ∨ e.code = ErrCodeRequestLimitExceeded then
      true
    else
      false

/-- The HTTP statuses treated as retryable by model.IsRetryableError. -/
def retryableStatuses : List Int := [429, 500, 502, 503, 504]

/-- The SDK error codes treated as retryable by model.IsRetryableError. -/
def retryableCodes : List String :=
  [ErrCodeServiceUnavailable, ErrCodeTimeout, ErrCodeRequestLimitExceeded]

/-- C1: model.IsRetryableError returns true exactly when the error is the SDK
error type and its HTTP status is one of 429, 500, 502, 503, 504 or its code
is one of ServiceUnavailable, Timeout, RequestLimitExceeded; every other
error value, including nil and non-SDK errors, is classified not retryable. -/
theorem isRetryableError_iff (err : Option GoError) :
    IsRetryableError err = true ↔
      ∃ e : SDKError, err = some (GoError.sdk e) ∧
        (e.statusCode ∈ retryableStatuses ∨ e.code ∈ retryableCodes) := by
  cases err with
  | none => simp [IsRetryableError]
  | some g =>
    cases g with
    | other c => simp [IsRetryableError]
    | sdk e =>
      simp only [IsRetryableError, retryableStatuses, retryableCodes,
        List.mem_cons, List.not_mem_nil, or_false]
      constructor
      · intro h
        refine ⟨e, rfl, ?_⟩
        by_cases h1 : e.statusCode = 429 ∨ e.statusCode = 500 ∨ e.statusCode = 502 ∨
            e.statusCode = 503 ∨ e.statusCode = 504
        · exact Or.inl (by tauto)
        · rw [if_neg h1] at h
          by_cases h2 : e.code = ErrCodeServiceUnavailable ∨ e.code = ErrCodeTimeout ∨
              e.code = ErrCodeRequestLimitExceeded
          · exact Or.inr (by tauto)
          · rw [if_neg h2] at h
            exact absurd h (by simp)
      · rintro ⟨e2, he, h⟩
        have he2 : e = e2 := by
          have h2 : GoError.sdk e = GoError.sdk e2 := by injection he
          injection h2
        subst he2
        rcases h with hs | hc
        · rw [if_pos (by tauto)]
        · by_cases h1 : e.statusCode = 429 ∨ e.statusCode = 500 ∨ e.statusCode = 502 ∨
              e.statusCode = 503 ∨ e.statusCode = 504
          · rw [if_pos h1]
          · rw [if_neg h1, if_pos (by tauto)]

/-- Loop body of utils.Retry (src/unnamed/part_006 lines 74-100), counting
invocations. The operation fn is modelled as a sequence of outcomes indexed by
the attempt number (none standing for a nil error, i.e. success); shouldRetry
is an Option because the Go parameter may be a nil function value, in which
case the fast-fail check is skipped. Returns the Go error result of the loop
together with the total number of times fn ran. The argument attempt is the
current loop index, remaining the number of loop iterations still allowed
after the current one (maxRetries minus attempt). -/
def retryLoop (fn : Nat → Option GoError) (shouldRetry : Option (GoError → Bool)) :
    Nat → Nat → Option GoError × Nat
  | attempt, remaining =>
    match fn attempt with
    | none => (none, attempt + 1)
    | some err =>
      if (match shouldRetry with | some p => !(p err) | none => false) then
        (some err, attempt + 1)
      else
        match remaining with
        | 0 => (some err, attempt + 1)
        | r + 1 => retryLoop fn shouldRetry (attempt + 1) r

/-- utils.Retry (src/unnamed/part_006 lines 67-103): clamps a negative
maxRetries to 0 and runs the loop for at most maxRetries+1 attempts. Sleeping
between attempts does not affect the result or the invocation count; the
backoff arithmetic is modelled separately by delayAfter and sleepDuration. -/
def Retry (maxRetries : Int) (fn : Nat → Option GoError)
    (shouldRetry : Option (GoError → Bool)) : Option GoError × Nat :=
  retryLoop fn shouldRetry 0 (if maxRetries < 0 then 0 else maxRetries).toNat

/-- The clamped retry budget: negative values of maxRetries mean 0. -/
def clampRetries (maxRetries : Int) : Nat :=
  (if maxRetries < 0 then 0 else maxRetries).toNat

theorem retryLoop_count_ge (fn : Nat → Option GoError) (sr : Option (GoError → Bool)) :
    ∀ remaining attempt, attempt + 1 ≤ (retryLoop fn sr attempt remaining).2 := by
  intro remaining
  induction remaining with
  | zero =>
    intro attempt
    rw [retryLoop]
    cases fn attempt with
    | none => simp
    | some err => cases h : (match sr with | some p => !(p err) | none => false) <;> simp
  | succ r ih =>
    intro attempt
    rw [retryLoop]
    cases fn attempt with
    | none => simp
    | some err =>
      cases h : (match sr with | some p => !(p err) | none => false) with
      | true => simp [h]
      | false =>
        simp only [h, if_false, Bool.false_eq_true]
        exact le_trans (by omega) (ih (attempt + 1))

theorem retryLoop_fastfail (fn : Nat → Option GoError) (p : GoError → Bool)
    (attempt remaining : Nat) (e : GoError)
    (hf : fn attempt = some e) (hp : p e = false) :
    retryLoop fn (some p) attempt remaining = (some e, attempt + 1) := by
  rw [retryLoop, hf]
  simp [hp]

theorem retryLoop_all_retryable (fn : Nat → Option GoError) (p : GoError → Bool)
    (h : ∀ k, ∃ e, fn k = some e ∧ p e = true) :
    ∀ remaining attempt,
      retryLoop fn (some p) attempt remaining = (fn (attempt + remaining), attempt + remaining + 1) := by
  intro remaining
  induction remaining with
  | zero =>
    intro attempt
    obtain ⟨e, he, hp⟩ := h attempt
    rw [retryLoop, he]
    simp [hp, he.symm]
  | succ r ih =>
    intro attempt
    obtain ⟨e, he, hp⟩ := h attempt
    rw [retryLoop, he]
    simp only [hp, Bool.not_true, if_false, Bool.false_eq_true]
    rw [ih (attempt + 1)]
    have harith : attempt + 1 + r = attempt + (r + 1) := by omega
    rw [harith]

theorem retryLoop_skip (fn : Nat → Option GoError) (p : GoError → Bool) :
    ∀ (j : Nat) (attempt remaining : Nat),
      (∀ i, i < j → ∃ e, fn (attempt + i) = some e ∧ p e = true) →
      j ≤ remaining →
      retryLoop fn (some p) attempt remaining = retryLoop fn (some p) (attempt + j) (remaining - j) := by
  intro j
  induction j with
  | zero => intro attempt remaining _ _; simp
  | succ n ih =>
    intro attempt remaining h hle
    obtain ⟨e, he, hp⟩ := h 0 (by omega)
    rw [Nat.add_zero] at he
    obtain ⟨r, rfl⟩ : ∃ r, remaining = r + 1 := ⟨remaining - 1, by omega⟩
    rw [retryLoop, he]
    simp only [hp, Bool.not_true, if_false, Bool.false_eq_true]
    rw [ih (attempt + 1) r (fun i hi => by
      obtain ⟨e2, he2, hp2⟩ := h (i + 1) (by omega)
      exact ⟨e2, by rw [show attempt + 1 + i = attempt + (i + 1) by omega]; exact he2, hp2⟩)
      (by omega)]
    have h1 : attempt + 1 + n = attempt + (n + 1) := by omega
    have h2 : r - n = r + 1 - (n + 1) := by omega
    rw [h1, h2]

/-- C2: contract of utils.Retry. First, the operation always runs at least
once. Second, if the attempts with index below j all fail with retryable
errors and attempt j (within the budget) fails with an error shouldRetry
rejects, Retry stops right there: the total invocation count is j+1 and that
error is returned (for a first-attempt non-retryable failure the count is 1).
Third, if every attempt fails with a retryable error, the operation runs
exactly clampRetries maxRetries + 1 times and the last error is returned;
clampRetries maps 0 to 0 (exactly one attempt) and negative values to 0. -/
theorem Retry_contract :
    (∀ (maxRetries : Int) (fn : Nat → Option GoError) (sr : Option (GoError → Bool)),
       1 ≤ (Retry maxRetries fn sr).2) ∧
    (∀ (maxRetries : Int) (fn : Nat → Option GoError) (p : GoError → Bool) (j : Nat) (e : GoError),
       (∀ i, i < j → ∃ ei, fn i = some ei ∧ p ei = true) →
       j ≤ clampRetries maxRetries →
       fn j = some e → p e = false →
       Retry maxRetries fn (some p) = (some e, j + 1)) ∧
    (∀ (maxRetries : Int) (fn : Nat → Option GoError) (p : GoError → Bool),
       (∀ k, ∃ e, fn k = some e ∧ p e = true) →
       Retry maxRetries fn (some p) =
         (fn (clampRetries maxRetries), clampRetries maxRetries + 1)) := by
  refine ⟨?_, ?_, ?_⟩
  · intro maxRetries fn sr
    exact retryLoop_count_ge fn sr _ 0
  · intro maxRetries fn p j e hall hj hf hp
    unfold Retry
    rw [retryLoop_skip fn p j 0 _ (by simpa using hall) (by exact hj)]
    simpa using retryLoop_fastfail fn p j _ e hf hp
  · intro maxRetries fn p h
    unfold Retry
    rw [retryLoop_all_retryable fn p h _ 0]
    simp [clampRetries]

/-- Witness for C2: concrete instances of the fast-fail and exhaustion parts.
A non-retryable first failure is returned after exactly one invocation, and
with maxRetries = 2 and a permanently retryable failure the operation runs
exactly 3 times. -/
theorem Retry_contract_witness :
    Retry 5 (fun _ => some (GoError.other (Cause.netError "bad"))) (some (fun _ => false)) =
      (some (GoError.other (Cause.netError "bad")), 1) ∧
    Retry 2 (fun _ => some (GoError.other (Cause.netError "down"))) (some (fun _ => true)) =
      (some (GoError.other (Cause.netError "down")), 3) :=
  ⟨Retry_contract.2.1 5 _ _ 0 _ (fun i hi => absurd hi (by omega)) (by decide) rfl rfl,
   Retry_contract.2.2 2 _ _ (fun k => ⟨GoError.other (Cause.netError "down"), rfl, rfl⟩)⟩

/-- utils.Retry backoff constant defaultInitialBackoff = 100ms, in nanoseconds. -/
def defaultInitialBackoff : Nat := 100000000

/-- utils.Retry backoff constant defaultMaxBackoff = 10s, in nanoseconds. -/
def defaultMaxBackoff : Nat := 10000000000

/-- The delay variable of utils.Retry after n completed sleeps: it starts at
defaultInitialBackoff and after each sleep is doubled and capped at
defaultMaxBackoff (src/unnamed/part_006 lines 72 and 82-86). The source
doubles via float64 multiplication by 2.0; for every value the variable can
take (at most 10^10 < 2^53 nanoseconds) that conversion and product are exact,
so the update is exactly 2 * delay capped. The k-th sleep, k ≥ 1, uses
delayAfter (k - 1). -/
def delayAfter : Nat → Nat
  | 0 => defaultInitialBackoff
  | n + 1 => min (2 * delayAfter n) defaultMaxBackoff

/-- The duration slept by utils.Retry before a retry attempt, given the
current delay and the drawn jitter (rand.Int63n yields jitter < delay):
delay + jitter, capped at defaultMaxBackoff (lines 76-81). -/
def sleepDuration (delay jitter : Nat) : Nat :=
  min (delay + jitter) defaultMaxBackoff

theorem delayAfter_eq (n : Nat) :
    delayAfter n = min (defaultInitialBackoff * 2 ^ n) defaultMaxBackoff := by
  induction n with
  | zero =>
    simp only [delayAfter, pow_zero, Nat.mul_one]
    rw [Nat.min_eq_left (by norm_num [defaultInitialBackoff, defaultMaxBackoff])]
  | succ m ih =>
    rw [delayAfter, ih, pow_succ]
    have h1 : defaultInitialBackoff * (2 ^ m * 2) = 2 * (defaultInitialBackoff * 2 ^ m) := by ring
    rw [h1]
    omega

/-- C8: the sleep between the k-th and (k+1)-th attempt is delay + jitter
with jitter drawn from [0, delay), where the delay for that sleep equals the
initial backoff doubled k-1 times (capped); hence for every admissible jitter
the sleep lies between base * 2^(k-1) and base * 2^k, both capped at the
backoff ceiling, and never exceeds the ceiling. -/
theorem backoff_sleep_bounds (k jitter : Nat) (hk : 1 ≤ k)
    (hj : jitter < delayAfter (k - 1)) :
    delayAfter (k - 1) = min (defaultInitialBackoff * 2 ^ (k - 1)) defaultMaxBackoff ∧
    min (defaultInitialBackoff * 2 ^ (k - 1)) defaultMaxBackoff ≤
      sleepDuration (delayAfter (k - 1)) jitter ∧
    sleepDuration (delayAfter (k - 1)) jitter ≤
      min (defaultInitialBackoff * 2 ^ k) defaultMaxBackoff ∧
    sleepDuration (delayAfter (k - 1)) jitter ≤ defaultMaxBackoff := by
  have heq := delayAfter_eq (k - 1)
  have hj2 : jitter < min (defaultInitialBackoff * 2 ^ (k - 1)) defaultMaxBackoff := heq ▸ hj
  have hpow : defaultInitialBackoff * 2 ^ k = 2 * (defaultInitialBackoff * 2 ^ (k - 1)) := by
    have h2 : 2 ^ k = 2 ^ (k - 1) * 2 := by
      rw [← pow_succ]
      congr 1
      omega
    rw [h2]
    ring
  refine ⟨heq, ?_, ?_, ?_⟩
  · rw [heq]
    unfold sleepDuration
    omega
  · rw [heq, hpow]
    unfold sleepDuration
    omega
  · unfold sleepDuration
    omega

/-- Witness for C8 at k = 1, jitter = 0: the first sleep is exactly the
initial backoff of 100ms. -/
theorem backoff_sleep_bounds_witness :
    (0 : Nat) < delayAfter 0 ∧
    (delayAfter 0 = min (defaultInitialBackoff * 2 ^ 0) defaultMaxBackoff ∧
     min (defaultInitialBackoff * 2 ^ 0) defaultMaxBackoff ≤ sleepDuration (delayAfter 0) 0 ∧
     sleepDuration (delayAfter 0) 0 ≤ min (defaultInitialBackoff * 2 ^ 1) defaultMaxBackoff ∧
     sleepDuration (delayAfter 0) 0 ≤ defaultMaxBackoff) :=
  ⟨by decide, backoff_sleep_bounds 1 0 (le_refl 1) (by decide)⟩

/-- The opening brace character, written by code point to keep JSON text
readable in the model. -/
def lbrace : Char := Char.ofNat 123

/-- The closing brace character. -/
def rbrace : Char := Char.ofNat 125

/-- Dynamic JSON values as produced by an encoding/json decoder configured
with UseNumber: numbers are kept verbatim as their literal token (the
json.Number string type), so the integer/float distinction in the input is
preserved rather than collapsed into float64. -/
inductive JSONValue where
  | null
  | boolean (b : Bool)
  | num (token : String)
  | str (s : String)
  | arr (elems : List JSONValue)
  | obj (fields : List (String × JSONValue))

/-- Whitespace skipping for the JSON reader. -/
def skipWS : List Char → List Char
  | [] => []
  | c :: rest =>
    if c = ' ' ∨ c = '\n' ∨ c = '\t' ∨ c = '\r' then skipWS rest else c :: rest

/-- Reads a JSON string body up to the closing quote. Escape sequences are
outside the modelled subset and make the read fail. -/
def scanString : List Char → Option (String × List Char)
  | [] => none
  | c :: rest =>
    if c = '"' then some ("", rest)
    else if c = '\\' then none
    else
      match scanString rest with
      | some (s, r) => some (c.toString ++ s, r)
      | none => none

/-- Characters that may appear in a JSON number token. -/
def isNumChar (c : Char) : Bool :=
  c.isDigit || c = '-' || c = '+' || c = '.' || c = 'e' || c = 'E'

/-- Takes the longest run of number characters from the front of the input. -/
def scanNum : List Char → String × List Char
  | [] => ("", [])
  | c :: rest =>
    if isNumChar c then
      let p := scanNum rest
      (c.toString ++ p.1, p.2)
    else ("", c :: rest)

/-- Consumes an expected literal tail such as rue of true. -/
def stripLit : List Char → List Char → Option (List Char)
  | [], rest => some rest
  | _ :: _, [] => none
  | l :: ls, c :: rest => if c = l then stripLit ls rest else none

mutual

/-- Fueled reader for one JSON value, modelling the external encoding/json
decoder under UseNumber on the subset the SDK exchanges (objects, arrays,
unescaped strings, numbers kept as tokens, true, false, null). -/
def parseVal : Nat → List Char → Option (JSONValue × List Char)
  | 0, _ => none
  | fuel + 1, cs0 =>
    match skipWS cs0 with
    | [] => none
    | c :: rest =>
      if c = lbrace then
        match skipWS rest with
        | d :: r2 => if d = rbrace then some (JSONValue.obj [], r2) else parseFields fuel (d :: r2) []
        | [] => none
      else if c = '[' then
        match skipWS rest with
        | d :: r2 => if d = ']' then some (JSONValue.arr [], r2) else parseItems fuel (d :: r2) []
        | [] => none
      else if c = '"' then
        match scanString rest with
        | some (s, r) => some (JSONValue.str s, r)
        | none => none
      else if c = 't' then
        match stripLit ['r', 'u', 'e'] rest with
        | some r => some (JSONValue.boolean true, r)
        | none => none
      else if c = 'f' then
        match stripLit ['a', 'l', 's', 'e'] rest with
        | some r => some (JSONValue.boolean false, r)
        | none => none
      else if c = 'n' then
        match stripLit ['u', 'l', 'l'] rest with
        | some r => some (JSONValue.null, r)
        | none => none
      else if isNumChar c then
        let p := scanNum (c :: rest)
        if p.1 = "" then none else some (JSONValue.num p.1, p.2)
      else none

/-- Fueled reader for the members of a JSON object after the opening brace. -/
def parseFields : Nat → List Char → List (String × JSONValue) →
    Option (JSONValue × List Char)
  | 0, _, _ => none
  | fuel + 1, cs, acc =>
    match skipWS cs with
    | [] => none
    | c :: rest =>
      if c = '"' then
        match scanString rest with
        | none => none
        | some (k, r1) =>
          match skipWS r1 with
          | [] => none
          | d :: r2 =>
            if d = ':' then
              match parseVal fuel r2 with
              | none => none
              | some (v, r3) =>
                match skipWS r3 with
                | [] => none
                | d2 :: r4 =>
                  if d2 = ',' then parseFields fuel r4 (acc ++ [(k, v)])
                  else if d2 = rbrace then some (JSONValue.obj (acc ++ [(k, v)]), r4)
                  else none
            else none
      else none

/-- Fueled reader for the elements of a JSON array after the opening bracket. -/
def parseItems : Nat → List Char → List JSONValue → Option (JSONValue × List Char)
  | 0, _, _ => none
  | fuel + 1, cs, acc =>
    match parseVal fuel cs with
    | none => none
    | some (v, r1) =>
      match skipWS r1 with
      | [] => none
      | d :: r2 =>
        if d = ',' then parseItems fuel r2 (acc ++ [v])
        else if d = ']' then some (JSONValue.arr (acc ++ [v]), r2)
        else none

end

/-- Models one call of json.Decoder.Decode with UseNumber on the given body:
the first JSON value is read (Decode reads a single value, trailing bytes are
left in the stream) and an empty or malformed body yields a decode error,
modelled as none. Called by utils.ParseJSONUseNumber (src/unnamed/part_007
helper, decoder with UseNumber). The fuel bound exceeds the largest possible
number of reader steps for the input. -/
def parseJSONValue (s : String) : Option JSONValue :=
  match parseVal (2 * s.length + 4) s.toList with
  | some (v, _) => some v
  | none => none

/-- The minimal error envelope struct of utils.ParseResponse
(src/unnamed/part_007 lines 31-35): code, message, request_id. -/
structure ErrResp where
  code : String
  message : String
  requestID : String
deriving DecidableEq, Repr

/-- Field lookup matching encoding/json object decoding: on duplicate keys the
last value wins. Key matching is modelled as exact (the case-insensitive
fallback of encoding/json is outside the modelled subset; the envelope keys
are lowercase on both sides). -/
def lookupLast (fields : List (String × JSONValue)) (k : String) : Option JSONValue :=
  match fields with
  | [] => none
  | (k0, v) :: rest =>
    match lookupLast rest k with
    | some v2 => some v2
    | none => if k0 = k then some v else none

/-- Decoding one string struct field, as encoding/json does: an absent field
or a JSON null leaves the zero value, a string is taken verbatim, any other
value is a decode error. -/
def decodeStringField (fields : List (String × JSONValue)) (k : String) : Option String :=
  match lookupLast fields k with
  | none => some ""
  | some JSONValue.null => some ""
  | some (JSONValue.str s) => some s
  | some _ => none

/-- Decoding the whole error envelope struct, as encoding/json does for a
struct with three string fields: the top-level value must be an object (or
null, which leaves all zero values); unknown fields are ignored. -/
def decodeErrResp : JSONValue → Option ErrResp
  | JSONValue.obj fields =>
    match decodeStringField fields "code", decodeStringField fields "message",
        decodeStringField fields "request_id" with
    | some c, some m, some r => some { code := c, message := m, requestID := r }
    | _, _, _ => none
  | JSONValue.null => some { code := "", message := "", requestID := "" }
  | _ => none

/-- The envelope parse done by utils.ParseResponse on a non-2xx body:
utils.ParseJSONUseNumber into the ErrResp struct; none models a non-nil
parseErr. -/
def parseErrorEnvelope (body : String) : Option ErrResp :=
  match parseJSONValue body with
  | some v => decodeErrResp v
  | none => none

/-- A received HTTP response: status code and body bytes (the body already
read; io.ReadAll failures are out of scope of the modelled claims). -/
structure HTTPResponse where
  statusCode : Int
  body : String
deriving DecidableEq, Repr

/-- utils.DoHTTPRequest (src/unnamed/part_007 lines 15-21): the outcome of
http.Client.Do, an external collaborator, is a parameter; every non-nil error
from it, context cancellation included, is wrapped as an SDK error with code
HTTPRequestFailed and HTTP status 503 (http.StatusServiceUnavailable),
carrying the original error as the cause. -/
def DoHTTPRequest (doOutcome : Except Cause HTTPResponse) : Except SDKError HTTPResponse :=
  match doOutcome with
  | Except.error c =>
    Except.error (NewErrorWithCause ErrCodeHTTPRequestFailed "failed to execute http request" (some c) 503)
  | Except.ok resp => Except.ok resp

/-- The generic error produced by utils.ParseResponse when a non-2xx body is
not a recognizable envelope: code Unknown, the raw status and body embedded in
the message, and the (nil at that point) read error as cause. -/
def unrecognizedBodyError (statusCode : Int) (body : String) : SDKError :=
  NewErrorWithCause ErrCodeUnknown ("unexpected " ++ toString statusCode ++ " response: " ++ body) none statusCode

/-- utils.ParseResponse (src/unnamed/part_007 lines 24-51), after a
successful body read. For a status outside [200, 300) it tries the minimal
error envelope and keeps it only when code or message is non-empty, falling
back to the generic Unknown error embedding status and body. For a 2xx
status, a nil target or empty body is a no-op success; otherwise the body is
decoded with UseNumber (the decoded dynamic value is returned where the
source fills the caller-owned target), and a decode failure is wrapped as an
SDK error. -/
def ParseResponse (statusCode : Int) (body : String) (targetPresent : Bool) :
    Except SDKError (Option JSONValue) :=
  if statusCode < 200 ∨ 300 ≤ statusCode then
    match parseErrorEnvelope body with
    | some er =>
      if er.code ≠ "" ∨ er.message ≠ "" then
        Except.error (NewErrorWithRequestID er.code er.message er.requestID statusCode)
      else
        Except.error (unrecognizedBodyError statusCode body)
    | none => Except.error (unrecognizedBodyError statusCode body)
  else if targetPresent = false ∨ body = "" then
    Except.ok none
  else
    match parseJSONValue body with
    | some v => Except.ok (some v)
    | none =>
      Except.error (NewErrorWithCause ErrCodeUnknown "failed to unmarshal response body"
        (some (Cause.jsonError "json decode failed")) statusCode)

/-- C3 counterexample: a 500 response whose body is a well-formed envelope
with only request_id non-empty. The parse succeeds and one of the three
fields is non-empty, yet ParseResponse does not return an SDK error carrying
that code, message and request id: the source keeps the envelope only when
code or message is non-empty, so the result is the generic Unknown error with
an empty request id. -/
theorem parseResponse_requestid_only_counterexample :
    parseErrorEnvelope "\x7b\"request_id\":\"r1\"\x7d" =
      some { code := "", message := "", requestID := "r1" } ∧
    ParseResponse 500 "\x7b\"request_id\":\"r1\"\x7d" true =
      Except.error (unrecognizedBodyError 500 "\x7b\"request_id\":\"r1\"\x7d") ∧
    ParseResponse 500 "\x7b\"request_id\":\"r1\"\x7d" true ≠
      Except.error (NewErrorWithRequestID "" "" "r1" 500) := by
  refine ⟨rfl, rfl, ?_⟩
  intro h
  rw [show ParseResponse 500 "\x7b\"request_id\":\"r1\"\x7d" true =
      Except.error (unrecognizedBodyError 500 "\x7b\"request_id\":\"r1\"\x7d") from rfl] at h
  injection h with h2
  exact absurd h2 (by decide)

/-- C3 amended: for a status outside [200, 300), whenever the envelope parse
succeeds and at least one of code or message (request_id does not count) is
non-empty, the result is an SDK error carrying exactly that code, message and
request id with the HTTP status; otherwise, including when only request_id is
non-empty or the parse fails, the result is the generic SDK error whose
message embeds the raw status and body text. -/
theorem parseResponse_error_path (statusCode : Int) (body : String) (t : Bool)
    (hs : statusCode < 200 ∨ 300 ≤ statusCode) :
    (∀ er : ErrResp, parseErrorEnvelope body = some er → (er.code ≠ "" ∨ er.message ≠ "") →
       ParseResponse statusCode body t =
         Except.error (NewErrorWithRequestID er.code er.message er.requestID statusCode)) ∧
    (∀ er : ErrResp, parseErrorEnvelope body = some er → er.code = "" → er.message = "" →
       ParseResponse statusCode body t = Except.error (unrecognizedBodyError statusCode body)) ∧
    (parseErrorEnvelope body = none →
       ParseResponse statusCode body t = Except.error (unrecognizedBodyError statusCode body)) := by
  refine ⟨?_, ?_, ?_⟩
  · intro er hp hne
    rw [ParseResponse, if_pos hs, hp]
    simp [hne]
  · intro er hp hc hm
    rw [ParseResponse, if_pos hs, hp]
    simp [hc, hm]
  · intro hp
    rw [ParseResponse, if_pos hs, hp]

/-- Witness for C3 amended, at the example of the spec: a 500 response with a
full envelope body decodes to an SDK error with exactly that code, message
and request id. -/
theorem parseResponse_error_path_witness :
    ((500 : Int) < 200 ∨ (300 : Int) ≤ 500) ∧
    ParseResponse 500 "\x7b\"code\":\"ServiceUnavailable\",\"message\":\"x\",\"request_id\":\"r1\"\x7d" true =
      Except.error (NewErrorWithRequestID "ServiceUnavailable" "x" "r1" 500) :=
  ⟨Or.inr (by norm_num),
   (parseResponse_error_path 500
      "\x7b\"code\":\"ServiceUnavailable\",\"message\":\"x\",\"request_id\":\"r1\"\x7d" true
      (Or.inr (by norm_num))).1
     { code := "ServiceUnavailable", message := "x", requestID := "r1" } rfl
     (Or.inl (by decide))⟩

/-- C4 counterexample: a context cancellation surfaced by http.Client.Do is
wrapped by DoHTTPRequest into exactly the same error class as a network
failure such as connection refused: same code HTTPRequestFailed, same HTTP
status 503, differing only in the wrapped cause; and that wrapped
cancellation error is classified retryable by IsRetryableError (status 503
is in the retryable set), contradicting both the distinctness and the
non-retryability asserted by the claim. -/
theorem doHTTPRequest_cancellation_counterexample :
    DoHTTPRequest (Except.error Cause.ctxCanceled) =
      Except.error (NewErrorWithCause ErrCodeHTTPRequestFailed
        "failed to execute http request" (some Cause.ctxCanceled) 503) ∧
    DoHTTPRequest (Except.error (Cause.netError "connection refused")) =
      Except.error (NewErrorWithCause ErrCodeHTTPRequestFailed
        "failed to execute http request" (some (Cause.netError "connection refused")) 503) ∧
    (NewErrorWithCause ErrCodeHTTPRequestFailed "failed to execute http request"
        (some Cause.ctxCanceled) 503).code =
      (NewErrorWithCause ErrCodeHTTPRequestFailed "failed to execute http request"
        (some (Cause.netError "connection refused")) 503).code ∧
    (NewErrorWithCause ErrCodeHTTPRequestFailed "failed to execute http request"
        (some Cause.ctxCanceled) 503).statusCode =
      (NewErrorWithCause ErrCodeHTTPRequestFailed "failed to execute http request"
        (some (Cause.netError "connection refused")) 503).statusCode ∧
    IsRetryableError (some (GoError.sdk (NewErrorWithCause ErrCodeHTTPRequestFailed
        "failed to execute http request" (some Cause.ctxCanceled) 503))) = true :=
  ⟨rfl, rfl, rfl, rfl, by decide⟩

/-- C4 amended: every failure of the underlying HTTP call, context
cancellation and deadline expiry included, is wrapped into the single
HTTPRequestFailed / status 503 SDK error class, distinguishable from a
network failure only through the wrapped cause, and that error is classified
as retryable. -/
theorem doHTTPRequest_wraps_all_failures (c : Cause) :
    DoHTTPRequest (Except.error c) =
      Except.error (NewErrorWithCause ErrCodeHTTPRequestFailed
        "failed to execute http request" (some c) 503) ∧
    IsRetryableError (some (GoError.sdk (NewErrorWithCause ErrCodeHTTPRequestFailed
        "failed to execute http request" (some c) 503))) = true :=
  ⟨rfl, rfl⟩

/-- Value of a run of decimal digit characters. -/
def digitsToNat (ds : List Char) : Nat :=
  ds.foldl (fun acc d => 10 * acc + (d.toNat - 48)) 0

/-- A non-empty all-digit run and its value; none otherwise. -/
def digitsVal (ds : List Char) : Option Nat :=
  if ds.isEmpty then none
  else if ds.all Char.isDigit then some (digitsToNat ds) else none

/-- Model of strconv.ParseInt base 10, bit size 64, as used by
json.Number.Int64: optional sign, decimal digits only, int64 range; a token
with a fraction or exponent is rejected. -/
def parseIntToken (s : String) : Option Int :=
  let v : Option Int :=
    match s.toList with
    | '-' :: ds => (digitsVal ds).map (fun n => -(n : Int))
    | '+' :: ds => (digitsVal ds).map (fun n => (n : Int))
    | ds => (digitsVal ds).map (fun n => (n : Int))
  match v with
  | some n => if -(2 ^ 63) ≤ n ∧ n ≤ 2 ^ 63 - 1 then some n else none
  | none => none

/-- Splits a number token at the exponent marker. -/
def splitAtExp (cs : List Char) : List Char × Option (List Char) :=
  match cs with
  | [] => ([], none)
  | c :: rest =>
    if c = 'e' ∨ c = 'E' then ([], some rest)
    else
      let p := splitAtExp rest
      (c :: p.1, p.2)

/-- Splits the mantissa at the decimal point. -/
def splitAtDot (cs : List Char) : List Char × Option (List Char) :=
  match cs with
  | [] => ([], none)
  | c :: rest =>
    if c = '.' then ([], some rest)
    else
      let p := splitAtDot rest
      (c :: p.1, p.2)

/-- An optionally signed digit run as an integer. -/
def parseSignedDigits (cs : List Char) : Option Int :=
  match cs with
  | '-' :: ds => (digitsVal ds).map (fun n => -(n : Int))
  | '+' :: ds => (digitsVal ds).map (fun n => (n : Int))
  | ds => (digitsVal ds).map (fun n => (n : Int))

/-- The exact value denoted by a JSON number token (optional sign, integer
digits, optional fraction, optional exponent), given as an unreduced
numerator / denominator pair of integers so it evaluates by pure integer
arithmetic. json.Number.Float64 calls strconv.ParseFloat, which returns the
binary64 value nearest this exact value; when the exact value is itself
representable in binary64 the conversion is therefore lossless. -/
def numTokenParts (s : String) : Option (Int × Nat) :=
  let signAndBody : Int × List Char :=
    match s.toList with
    | '-' :: rest => (-1, rest)
    | rest => (1, rest)
  let me := splitAtExp signAndBody.2
  let idf := splitAtDot me.1
  let expVal : Option Int :=
    match me.2 with
    | none => some 0
    | some e => parseSignedDigits e
  let fracDigits : List Char := (idf.2).getD []
  let fracOK : Bool :=
    match idf.2 with
    | none => true
    | some f => !f.isEmpty && f.all Char.isDigit
  match digitsVal idf.1, expVal with
  | some ipn, some ev =>
    if fracOK then
      let mant : Int := signAndBody.1 * ((ipn * 10 ^ fracDigits.length + digitsToNat fracDigits : Nat) : Int)
      some (mant * (10 : Int) ^ ev.toNat, 10 ^ fracDigits.length * 10 ^ (-ev).toNat)
    else none
  | _, _ => none

/-- The token s denotes exactly the rational q. -/
def numTokenDenotes (s : String) (q : ℚ) : Prop :=
  ∃ p : Int × Nat, numTokenParts s = some p ∧ p.2 ≠ 0 ∧ (p.1 : ℚ) = q * (p.2 : ℚ)

/-- A rational exactly representable as an IEEE 754 binary64 value: an
integer significand of magnitude at most 2^53 scaled by a power of two (the
exponent range is irrelevant at this magnitude). strconv.ParseFloat returns
exactly such a value unchanged. -/
def exactlyRepresentableBinary64 (q : ℚ) : Prop :=
  ∃ (m : ℤ) (e : ℤ), q = (m : ℚ) * (2 : ℚ) ^ e ∧ m.natAbs ≤ 2 ^ 53

/-- C7: on a 2xx status with a non-nil target and non-empty body, decoding
goes through UseNumber, so the field score of the body with 47 decodes to the
number token 47 rather than a float; that token converts to the integer 47
via the Int64 view and denotes exactly the rational 47, which is exactly
representable in binary64, so the Float64 view is exactly 47.0. Numbers are
not collapsed into one floating type: the tokens 47 and 47.0 stay distinct
decoded values, and only the former is an integer for the Int64 view. -/
theorem parseResponse_preserves_numeric_distinction :
    ParseResponse 200 "\x7b\"score\": 47\x7d" true =
      Except.ok (some (JSONValue.obj [("score", JSONValue.num "47")])) ∧
    parseIntToken "47" = some 47 ∧
    numTokenDenotes "47" 47 ∧
    exactlyRepresentableBinary64 47 ∧
    ParseResponse 200 "\x7b\"score\": 47.0\x7d" true =
      Except.ok (some (JSONValue.obj [("score", JSONValue.num "47.0")])) ∧
    numTokenDenotes "47.0" 47 ∧
    JSONValue.num "47" ≠ JSONValue.num "47.0" ∧
    parseIntToken "47.0" = none := by
  refine ⟨rfl, by decide, ⟨(47, 1), rfl, by norm_num, by norm_num⟩,
    ⟨47, 0, by norm_num, by norm_num⟩, rfl, ⟨(470, 10), rfl, by norm_num, by norm_num⟩, ?_, by decide⟩
  intro h
  injection h with h2
  exact absurd h2 (by decide)

/-- vector.Config (src/unnamed/part_005 lines 14-21): endpoint, region,
timeout (nanoseconds), max retries, presence of a custom HTTP client, user
agent. -/
structure GoConfig where
  endpoint : String
  region : String
  timeout : Int
  maxRetries : Int
  hasHTTPClient : Bool
  userAgent : String
deriving DecidableEq, Repr

/-- vector.Version. -/
def Version : String := "0.1.0"

/-- vector.DefaultConfig (src/unnamed/part_005 lines 24-31). -/
def DefaultConfig : GoConfig :=
  { endpoint := "https://api.vector.bytedance.com", region := "cn-beijing",
    timeout := 30000000000, maxRetries := 3, hasHTTPClient := false, userAgent := "" }

/-- vector.Auth (collection_client.go lines 99-135): the credential supplied
at construction, one of the three kinds built by AuthNone, AuthIAM and
AuthAPIKey. -/
inductive Auth where
  | authNone
  | authIAM (accessKey secretKey : String)
  | authAPIKey (apiKey : String)
deriving DecidableEq, Repr

/-- The authenticator selected at Transport construction (collection_client.go
lines 137-170): noAuth, apiKeyAuth or iamAuth with its bound credentials and
region. -/
inductive Authenticator where
  | noAuth
  | apiKeyAuth (token : String)
  | iamAuth (ak sk region : String)
deriving DecidableEq, Repr

/-- An outgoing HTTP request as assembled by transport.buildRequest: method,
path, query parameters, headers, body bytes, and the credentials handed to
the external IAM signing primitive when it was invoked (none otherwise). -/
structure BuiltRequest where
  method : String
  path : String
  query : List (String × String)
  headers : List (String × String)
  body : String
  signedBy : Option (String × String × String)
deriving DecidableEq, Repr

/-- http.Header.Set: replaces any previous value of the key. -/
def setHeader (r : BuiltRequest) (k v : String) : BuiltRequest :=
  { r with headers := (r.headers.filter (fun p => p.1 ≠ k)) ++ [(k, v)] }

/-- Reads a header value from a built request. -/
def getHeader (r : BuiltRequest) (k : String) : Option String :=
  ((r.headers.filter (fun p => p.1 = k)).getLast?).map Prod.snd

/-- utils.SignRequestWithRegion (vector/utils/auth.go): the external IAM
signing primitive of the volc-sdk, modelled as recording the credentials and
region it was invoked with. -/
def signExternal (r : BuiltRequest) (ak sk region : String) : BuiltRequest :=
  { r with signedBy := some (ak, sk, region) }

/-- The authenticator.apply capability (collection_client.go lines 137-170):
noAuth passes the request through unchanged; apiKeyAuth sets the bearer
Authorization header unless the token is empty; iamAuth rejects empty keys
with an InvalidParameter error and otherwise invokes the external signer. -/
def applyAuth : Authenticator → BuiltRequest → Except SDKError BuiltRequest
  | Authenticator.noAuth, r => Except.ok r
  | Authenticator.apiKeyAuth t, r =>
    if t = "" then Except.ok r
    else Except.ok (setHeader r "Authorization" ("Bearer " ++ t))
  | Authenticator.iamAuth ak sk region, r =>
    if ak = "" ∨ sk = "" then
      Except.error (NewInvalidParameterError "access key and secret key cannot be empty")
    else Except.ok (signExternal r ak sk region)

/-- The transport built by newTransport: resolved configuration, the selected
authenticator and the effective user agent. -/
structure Transport where
  endpoint : String
  region : String
  timeout : Int
  maxRetries : Int
  auth : Authenticator
  userAgent : String
deriving DecidableEq, Repr

/-- vector.newTransport (collection_client.go lines 180-240): empty endpoint
is rejected; region, timeout and user agent default when unset; the
authenticator is selected from the credential kind, empty required secrets
being rejected with InvalidParameter errors; the credential kind none falls
into the switch default, which rejects construction with an InvalidParameter
error whose message is no auth; finally a negative max retries is clamped
to 0. url.Parse and the scheme defaulting are not modelled (url.Parse
accepts every endpoint the claims concern). -/
def newTransport (cfg : GoConfig) (authConfig : Auth) : Except SDKError Transport :=
  if cfg.endpoint = "" then
    Except.error (NewInvalidParameterError "endpoint cannot be empty")
  else
    let region := if cfg.region = "" then DefaultConfig.region else cfg.region
    let timeout := if cfg.timeout ≤ 0 then DefaultConfig.timeout else cfg.timeout
    let userAgent := if cfg.userAgent = "" then "vikingdb-go-sdk/" ++ Version else cfg.userAgent
    let mkT : Authenticator → Transport := fun auth =>
      { endpoint := cfg.endpoint, region := region, timeout := timeout,
        maxRetries := if cfg.maxRetries < 0 then 0 else cfg.maxRetries,
        auth := auth, userAgent := userAgent }
    match authConfig with
    | Auth.authIAM ak sk =>
      if ak = "" ∨ sk = "" then
        Except.error (NewInvalidParameterError "access key and secret key cannot be empty")
      else Except.ok (mkT (Authenticator.iamAuth ak sk region))
    | Auth.authAPIKey key =>
      if key = "" then Except.error (NewInvalidParameterError "api key cannot be empty")
      else Except.ok (mkT (Authenticator.apiKeyAuth key))
    | Auth.authNone => Except.error (NewInvalidParameterError "no auth")

/-- vector.New (collection_client.go lines 248-260): applies the option list
to DefaultConfig and builds the transport. -/
def New (authConfig : Auth) (opts : List (GoConfig → GoConfig)) : Except SDKError Transport :=
  newTransport (opts.foldl (fun c f => f c) DefaultConfig) authConfig

/-- vector.RequestOptions (collection_client.go lines 390-395) with the
defaults of defaultRequestOptions. -/
structure RequestOptions where
  maxRetries : Int
  headers : List (String × String)
  query : List (String × String)
  requestID : String
deriving DecidableEq, Repr

/-- vector.defaultRequestOptions: zero retries override, empty maps. -/
def defaultRequestOptions : RequestOptions :=
  { maxRetries := 0, headers := [], query := [], requestID := "" }

/-- The requestIDHeader constant X-Tt-Logid (collection_client.go line 97). -/
def requestIDHeader : String := "X-Tt-Logid"

/-- transport.buildRequest (collection_client.go lines 343-383): a fresh
request with the call query parameters and body, then Content-Type for a
non-empty body, Accept, User-Agent when set, the per-call extra headers, the
request id header X-Tt-Logid when supplied, and finally the authenticator.
URL resolution is carried as the path; http.NewRequestWithContext failures
are out of scope for the modelled claims. -/
def buildRequest (t : Transport) (method path body : String) (opts : RequestOptions) :
    Except SDKError BuiltRequest :=
  let req : BuiltRequest :=
    { method := method, path := path, query := opts.query, headers := [],
      body := body, signedBy := none }
  let req := if body ≠ "" then setHeader req "Content-Type" "application/json" else req
  let req := setHeader req "Accept" "application/json"
  let req := if t.userAgent ≠ "" then setHeader req "User-Agent" t.userAgent else req
  let req := opts.headers.foldl (fun r p => setHeader r p.1 p.2) req
  let req := if opts.requestID ≠ "" then setHeader req requestIDHeader opts.requestID else req
  applyAuth t.auth req

/-- The shouldRetry predicate the transport passes to utils.Retry, applied to
the non-nil error of a failed attempt. -/
def shouldRetryGo (e : GoError) : Bool :=
  IsRetryableError (some e)

/-- One attempt of the retried operation inside transport.doRequest
(collection_client.go lines 327-340): rebuild the request from the body
bytes serialized before the loop, execute it (the HTTP outcome of attempt k
is the external parameter net k) and parse the response. none models a nil
error, i.e. a successful attempt. -/
def doAttempt (t : Transport) (method path body : String) (opts : RequestOptions)
    (net : Nat → Except Cause HTTPResponse) (targetPresent : Bool) (k : Nat) :
    Option GoError :=
  match buildRequest t method path body opts with
  | Except.error e => some (GoError.sdk e)
  | Except.ok _ =>
    match DoHTTPRequest (net k) with
    | Except.error e => some (GoError.sdk e)
    | Except.ok resp =>
      match ParseResponse resp.statusCode resp.body targetPresent with
      | Except.error e => some (GoError.sdk e)
      | Except.ok _ => none

/-- transport.doRequest (collection_client.go lines 300-341): resolves the
retry budget from the per-call override and the transport default, serializes
the request value once before the retry loop (serialize is the outcome of
utils.SerializeToJSON, none modelling a nil request value), failing fast with
an InvalidParameter error without running any attempt when serialization
fails, and otherwise runs utils.Retry over doAttempt with
utils.IsRetryableError. Returns the resulting Go error and the number of
attempts that ran. -/
def doRequest (t : Transport) (method path : String)
    (serialize : Option (Except String String))
    (net : Nat → Except Cause HTTPResponse) (targetPresent : Bool)
    (opts : RequestOptions) : Option GoError × Nat :=
  let retries0 := if opts.maxRetries ≤ 0 then t.maxRetries else opts.maxRetries
  let retries := if retries0 < 0 then 0 else retries0
  match serialize with
  | some (Except.error e) =>
    (some (GoError.sdk (NewErrorWithCause ErrCodeInvalidParameter "failed to marshal request"
      (some (Cause.jsonError e)) 400)), 0)
  | some (Except.ok body) =>
    Retry retries (doAttempt t method path body opts net targetPresent) (some shouldRetryGo)
  | none =>
    Retry retries (doAttempt t method path "" opts net targetPresent) (some shouldRetryGo)

/-- The visible effect of the authenticator on a built request: no-auth
leaves no trace, bearer auth sets the Authorization header (unless the token
is empty), IAM auth hands the request to the external signer with its bound
credentials. -/
def authApplied : Authenticator → BuiltRequest → Prop
  | Authenticator.noAuth, _ => True
  | Authenticator.apiKeyAuth t, r =>
    t = "" ∨ getHeader r "Authorization" = some ("Bearer " ++ t)
  | Authenticator.iamAuth ak sk region, r => r.signedBy = some (ak, sk, region)

theorem setHeader_body (r : BuiltRequest) (k v : String) : (setHeader r k v).body = r.body := rfl

theorem setHeader_signedBy (r : BuiltRequest) (k v : String) :
    (setHeader r k v).signedBy = r.signedBy := rfl

theorem foldl_setHeader_body (hs : List (String × String)) (r : BuiltRequest) :
    (hs.foldl (fun acc p => setHeader acc p.1 p.2) r).body = r.body := by
  induction hs generalizing r with
  | nil => rfl
  | cons h rest ih => rw [List.foldl_cons, ih, setHeader_body]

theorem foldl_setHeader_signedBy (hs : List (String × String)) (r : BuiltRequest) :
    (hs.foldl (fun acc p => setHeader acc p.1 p.2) r).signedBy = r.signedBy := by
  induction hs generalizing r with
  | nil => rfl
  | cons h rest ih => rw [List.foldl_cons, ih, setHeader_signedBy]

theorem filter_eq_of_filter_ne (l : List (String × String)) (k : String) :
    (l.filter (fun p => p.1 ≠ k)).filter (fun p => p.1 = k) = [] := by
  induction l with
  | nil => rfl
  | cons h rest ih =>
    by_cases hk : h.1 = k
    · simp [List.filter, hk, ih]
    · simp [List.filter, hk, ih]

theorem getHeader_setHeader (r : BuiltRequest) (k v : String) :
    getHeader (setHeader r k v) k = some v := by
  unfold getHeader setHeader
  simp only [List.filter_append, filter_eq_of_filter_ne]
  simp

/-- C10 helper: the request finally assembled by buildRequest carries exactly
the body bytes it was given and shows the authenticator applied. -/
theorem buildRequest_body_auth (t : Transport) (method path body : String)
    (opts : RequestOptions) (r : BuiltRequest)
    (h : buildRequest t method path body opts = Except.ok r) :
    r.body = body ∧ authApplied t.auth r := by
  unfold buildRequest at h
  set req0 : BuiltRequest :=
    { method := method, path := path, query := opts.query, headers := [],
      body := body, signedBy := none } with hreq0
  set req3 : BuiltRequest :=
    (if t.userAgent ≠ "" then
      setHeader (setHeader (if body ≠ "" then setHeader req0 "Content-Type" "application/json" else req0)
        "Accept" "application/json") "User-Agent" t.userAgent
    else
      setHeader (if body ≠ "" then setHeader req0 "Content-Type" "application/json" else req0)
        "Accept" "application/json") with hreq3
  have hbody3 : req3.body = body := by
    rw [hreq3]
    by_cases hua : t.userAgent ≠ "" <;> by_cases hb : body ≠ "" <;>
      simp [hua, hb, setHeader_body, hreq0]
  have hsig3 : req3.signedBy = none := by
    rw [hreq3]
    by_cases hua : t.userAgent ≠ "" <;> by_cases hb : body ≠ "" <;>
      simp [hua, hb, setHeader_signedBy, hreq0]
  set req4 : BuiltRequest := opts.headers.foldl (fun acc p => setHeader acc p.1 p.2) req3 with hreq4
  set req5 : BuiltRequest :=
    (if opts.requestID ≠ "" then setHeader req4 requestIDHeader opts.requestID else req4) with hreq5
  have hbody5 : req5.body = body := by
    rw [hreq5]
    by_cases hrid : opts.requestID ≠ "" <;>
      simp [hrid, setHeader_body, hreq4, foldl_setHeader_body, hbody3]
  have hsig5 : req5.signedBy = none := by
    rw [hreq5]
    by_cases hrid : opts.requestID ≠ "" <;>
      simp [hrid, setHeader_signedBy, hreq4, foldl_setHeader_signedBy, hsig3]
  have happly : applyAuth t.auth req5 = Except.ok r := h
  cases hauth : t.auth with
  | noAuth =>
    rw [hauth] at happly
    simp only [applyAuth] at happly
    injection happly with hr
    subst hr
    exact ⟨hbody5, trivial⟩
  | apiKeyAuth tk =>
    rw [hauth] at happly
    simp only [applyAuth] at happly
    by_cases htk : tk = ""
    · rw [if_pos htk] at happly
      injection happly with hr
      subst hr
      exact ⟨hbody5, Or.inl htk⟩
    · rw [if_neg htk] at happly
      injection happly with hr
      subst hr
      exact ⟨by rw [setHeader_body, hbody5], Or.inr (getHeader_setHeader _ _ _)⟩
  | iamAuth ak sk region =>
    rw [hauth] at happly
    simp only [applyAuth] at happly
    by_cases hk : ak = "" ∨ sk = ""
    · rw [if_pos hk] at happly
      exact absurd happly (by simp)
    · rw [if_neg hk] at happly
      injection happly with hr
      subst hr
      exact ⟨hbody5, rfl⟩

/-- C5: credential validation at construction. With a non-empty endpoint, an
empty access key or empty secret key in IAM mode and an empty token in
bearer mode are rejected synchronously with InvalidParameter errors, and
non-empty credentials of those two kinds succeed; but the credential kind
none is also rejected (with the InvalidParameter error no auth), so valid
credentials do not succeed for every kind, contrary to the claim. -/
theorem newTransport_credential_validation :
    (∀ (cfg : GoConfig) (sk : String), cfg.endpoint ≠ "" →
       newTransport cfg (Auth.authIAM "" sk) =
         Except.error (NewInvalidParameterError "access key and secret key cannot be empty")) ∧
    (∀ (cfg : GoConfig) (ak : String), cfg.endpoint ≠ "" →
       newTransport cfg (Auth.authIAM ak "") =
         Except.error (NewInvalidParameterError "access key and secret key cannot be empty")) ∧
    (∀ (cfg : GoConfig), cfg.endpoint ≠ "" →
       newTransport cfg (Auth.authAPIKey "") =
         Except.error (NewInvalidParameterError "api key cannot be empty")) ∧
    (∀ (cfg : GoConfig) (ak sk : String), cfg.endpoint ≠ "" → ak ≠ "" → sk ≠ "" →
       ∃ t, newTransport cfg (Auth.authIAM ak sk) = Except.ok t) ∧
    (∀ (cfg : GoConfig) (key : String), cfg.endpoint ≠ "" → key ≠ "" →
       ∃ t, newTransport cfg (Auth.authAPIKey key) = Except.ok t) ∧
    (∀ (cfg : GoConfig), cfg.endpoint ≠ "" →
       newTransport cfg Auth.authNone = Except.error (NewInvalidParameterError "no auth")) := by
  refine ⟨?_, ?_, ?_, ?_, ?_, ?_⟩
  · intro cfg sk h
    simp [newTransport, h]
  · intro cfg ak h
    simp [newTransport, h]
  · intro cfg h
    simp [newTransport, h]
  · intro cfg ak sk h hak hsk
    simp [newTransport, h, hak, hsk]
  · intro cfg key h hkey
    simp [newTransport, h, hkey]
  · intro cfg h
    simp [newTransport, h]

/-- Witness for C5: with the default configuration, an empty bearer key is
rejected, a non-empty IAM pair succeeds, and the none kind is rejected with
the no auth error. -/
theorem newTransport_credential_validation_witness :
    (DefaultConfig.endpoint ≠ "" ∧
     newTransport DefaultConfig (Auth.authAPIKey "") =
       Except.error (NewInvalidParameterError "api key cannot be empty")) ∧
    (∃ t, newTransport DefaultConfig (Auth.authIAM "ak" "sk") = Except.ok t) ∧
    newTransport DefaultConfig Auth.authNone =
      Except.error (NewInvalidParameterError "no auth") :=
  ⟨⟨by decide, newTransport_credential_validation.2.2.1 DefaultConfig (by decide)⟩,
   newTransport_credential_validation.2.2.2.1 DefaultConfig "ak" "sk" (by decide) (by decide) (by decide),
   newTransport_credential_validation.2.2.2.2.2 DefaultConfig (by decide)⟩

/-- C6: the noAuth authenticator is the identity on requests, exactly as
claimed; but a Transport with the no-auth credential kind can never be
constructed, because newTransport sends the kind none into its rejecting
switch default, so the construction half of the claim fails on the code
(while AuthNone is documented as disabling request signing). -/
theorem noAuth_identity_and_rejected_construction :
    (∀ r : BuiltRequest, applyAuth Authenticator.noAuth r = Except.ok r) ∧
    (∀ (cfg : GoConfig), cfg.endpoint = "" →
       newTransport cfg Auth.authNone =
         Except.error (NewInvalidParameterError "endpoint cannot be empty")) ∧
    (∀ (cfg : GoConfig), cfg.endpoint ≠ "" →
       newTransport cfg Auth.authNone =
         Except.error (NewInvalidParameterError "no auth")) := by
  refine ⟨fun r => rfl, ?_, ?_⟩
  · intro cfg h
    simp [newTransport, h]
  · intro cfg h
    simp [newTransport, h]

/-- Witness for C6: a concrete request passes noAuth unchanged, and the
default configuration with the none credential kind is rejected. -/
theorem noAuth_identity_and_rejected_construction_witness :
    applyAuth Authenticator.noAuth
      { method := "POST", path := "/p", query := [], headers := [], body := "b", signedBy := none } =
      Except.ok
        { method := "POST", path := "/p", query := [], headers := [], body := "b", signedBy := none } ∧
    newTransport DefaultConfig Auth.authNone =
      Except.error (NewInvalidParameterError "no auth") :=
  ⟨noAuth_identity_and_rejected_construction.1 _,
   noAuth_identity_and_rejected_construction.2.2 DefaultConfig (by decide)⟩

/-- A sample constructed transport used by concrete witnesses. -/
def sampleTransport : Transport :=
  { endpoint := "https://example", region := "cn-beijing", timeout := 30000000000,
    maxRetries := 3, auth := Authenticator.apiKeyAuth "k", userAgent := "ua" }

/-- C9: the per-call retry budget observed through the attempt count. When
every attempt fails with the retryable wrapped network error, doRequest runs
the operation budget+1 times, where the budget is the per-call override when
positive and otherwise the transport default clamped at zero. -/
theorem doRequest_retry_budget (t : Transport) (method path body : String)
    (opts : RequestOptions) (tp : Bool) (c : Cause) (r : BuiltRequest)
    (hbuild : buildRequest t method path body opts = Except.ok r) :
    (doRequest t method path (some (Except.ok body)) (fun _ => Except.error c) tp opts).2 =
      (if 0 < opts.maxRetries then opts.maxRetries.toNat
       else (if t.maxRetries < 0 then 0 else t.maxRetries).toNat) + 1 := by
  have hall : ∀ k, ∃ e, doAttempt t method path body opts (fun _ => Except.error c) tp k = some e ∧
      shouldRetryGo e = true := by
    intro k
    refine ⟨GoError.sdk (NewErrorWithCause ErrCodeHTTPRequestFailed
      "failed to execute http request" (some c) 503), ?_, rfl⟩
    unfold doAttempt
    rw [hbuild]
    rfl
  simp only [doRequest, Retry]
  rw [retryLoop_all_retryable _ _ hall _ 0]
  simp only [Nat.zero_add]
  split_ifs <;> omega

/-- Witness for C9: with the sample transport (default 3) and no per-call
override, a permanently failing call runs the operation exactly 4 times. -/
theorem doRequest_retry_budget_witness :
    (doRequest sampleTransport "POST" "/p" (some (Except.ok "b"))
      (fun _ => Except.error (Cause.netError "refused")) true defaultRequestOptions).2 = 4 :=
  doRequest_retry_budget sampleTransport "POST" "/p" "b" defaultRequestOptions true
    (Cause.netError "refused") _ rfl

/-- C10: the request body is serialized once, before the retry loop. A
serialization failure surfaces as an InvalidParameter error with the
operation never invoked (count 0), so it is never retried; on success the
retried operation is doAttempt over the one serialized byte string, whose
every attempt rebuilds the HTTP request by buildRequest from exactly those
bytes, and every successfully built request carries those body bytes with
the authenticator re-applied to it. -/
theorem doRequest_serializes_once (t : Transport) (method path : String)
    (opts : RequestOptions) (tp : Bool) (net : Nat → Except Cause HTTPResponse) :
    (∀ e : String, doRequest t method path (some (Except.error e)) net tp opts =
       (some (GoError.sdk (NewErrorWithCause ErrCodeInvalidParameter "failed to marshal request"
         (some (Cause.jsonError e)) 400)), 0)) ∧
    (∀ body : String, doRequest t method path (some (Except.ok body)) net tp opts =
       Retry (if (if opts.maxRetries ≤ 0 then t.maxRetries else opts.maxRetries) < 0 then 0
              else if opts.maxRetries ≤ 0 then t.maxRetries else opts.maxRetries)
         (doAttempt t method path body opts net tp) (some shouldRetryGo)) ∧
    (∀ (body : String) (r : BuiltRequest),
       buildRequest t method path body opts = Except.ok r →
       r.body = body ∧ authApplied t.auth r) := by
  refine ⟨fun e => rfl, fun body => rfl, ?_⟩
  intro body r h
  exact buildRequest_body_auth t method path body opts r h

/-- Witness for C10: a failing serialization returns the marshal error with
zero attempts, and the concrete request built by the sample transport
carries the serialized bytes with the bearer header applied. -/
theorem doRequest_serializes_once_witness :
    doRequest sampleTransport "POST" "/p" (some (Except.error "cycle"))
      (fun _ => Except.error (Cause.netError "refused")) true defaultRequestOptions =
      (some (GoError.sdk (NewErrorWithCause ErrCodeInvalidParameter "failed to marshal request"
        (some (Cause.jsonError "cycle")) 400)), 0) ∧
    ({ method := "POST", path := "/p", query := [],
       headers := [("Content-Type", "application/json"), ("Accept", "application/json"),
         ("User-Agent", "ua"), ("Authorization", "Bearer k")],
       body := "b", signedBy := none } : BuiltRequest).body = "b" ∧
    authApplied sampleTransport.auth
      { method := "POST", path := "/p", query := [],
        headers := [("Content-Type", "application/json"), ("Accept", "application/json"),
          ("User-Agent", "ua"), ("Authorization", "Bearer k")],
        body := "b", signedBy := none } :=
  ⟨(doRequest_serializes_once sampleTransport "POST" "/p" defaultRequestOptions true
      (fun _ => Except.error (Cause.netError "refused"))).1 "cycle",
   (doRequest_serializes_once sampleTransport "POST" "/p" defaultRequestOptions true
      (fun _ => Except.error (Cause.netError "refused"))).2.2 "b" _ rfl⟩

end VikingDB
